import Mathlib

/-!
Shallow embedding of the bdk-rn façade (`src/src/index.ts`, compiled twin
`src/lib/index.js`): a validation-and-derivation layer in front of an external
Bitcoin wallet engine.  Optional JavaScript values are modelled by `JSVal`
(undefined / null / string), the engine by a record of response functions, and
each façade operation returns its result envelope together with the list of
engine calls it issued, in order.
-/

namespace BdkRn

/-- A loosely-typed JavaScript value as the façade sees its optional string
fields: `undefined`, `null`, or a string. -/
inductive JSVal where
  | undefined
  | null
  | str (s : String)
deriving DecidableEq, Repr

/-- JavaScript template-literal stringification of a `JSVal`
(`` `${v}` `` renders `undefined` as `"undefined"` and `null` as `"null"`). -/
def JSVal.toTemplateString : JSVal → String
  | .undefined => "undefined"
  | .null => "null"
  | .str s => s

/-- Modelled from the spec: the existence predicate `_exists` of
`src/lib/utils` (the utils module is not under `src/`).  Spec 4.2: true iff
the value is not null, not undefined, and not an empty string. -/
def jsExists (v : JSVal) : Bool :=
  match v with
  | .undefined => false
  | .null => false
  | .str s => s ≠ ""

/-- Modelled from the spec: the result envelope of `src/lib/utils` (not under
`src/`).  Spec 4.1: tagged union, `success data` vs `failure error`; no façade
operation lets an exception escape. -/
inductive Response (α : Type) where
  | success (data : α)
  | failure (error : JSVal)
deriving DecidableEq, Repr

/-- JavaScript property access `.data` on an envelope whose success arm holds a
`JSVal`: on the failure arm (shape `\x7bok:false, error\x7d` per spec 4.1)
the `data` property is absent, so the access yields `undefined`. -/
def Response.dataField : Response JSVal → JSVal
  | .success d => d
  | .failure _ => .undefined

/-- Whether an envelope is the failure arm. -/
def Response.isFailure {α : Type} : Response α → Bool
  | .success _ => false
  | .failure _ => true

/-- `ExtendedKeyInfo` returned by the engine's `getExtendedKeyInfo`; the façade
only ever reads its `xprv` field (spec 3), so only that field is modelled. -/
structure CreateExtendedKeyResponse where
  xprv : JSVal
deriving DecidableEq, Repr

/-- A record of one call into the external engine, with the arguments the
façade passed, in positional order. -/
inductive EngineCall where
  | generateMnemonic (wordCount : Option Nat) (network : JSVal)
  | getExtendedKeyInfo (network mnemonic password : JSVal)
  | createWallet (mnemonic password network blockChainConfigUrl blockChainSocket5
      retry timeOut blockChainName descriptor : String)
  | getConfirmedTransactions
  | getPendingTransactions
deriving DecidableEq, Repr

/-- The external wallet engine (`this._bdk`), as the capabilities the façade
consumes: each is a response function; `Except.error` models a rejected native
call (a thrown value caught by the façade's `try`/`catch`). -/
structure Engine (τc τp ω : Type) where
  generateMnemonic : Option Nat → JSVal → Except JSVal String
  getExtendedKeyInfo : JSVal → JSVal → JSVal → Except JSVal CreateExtendedKeyResponse
  createWallet : String → String → String → String → String → String → String → String →
      String → Except JSVal ω
  getConfirmedTransactions : Except JSVal (List τc)
  getPendingTransactions : Except JSVal (List τp)

variable {τc τp ω : Type}

/-! ### generateMnemonic (src/src/index.ts lines 28-54) -/

/-- Arguments of `generateMnemonic`; spec 3 `GenerateMnemonicRequest`. -/
structure GenerateMnemonicRequest where
  entropy : Option Nat
  length : Option Nat
  network : JSVal
deriving DecidableEq, Repr

/-- JavaScript truthiness of an optional number: `undefined`, `null` and `0`
are falsy, every other number is truthy. -/
def truthyNat : Option Nat → Bool
  | none => false
  | some n => n ≠ 0

/-- The `entropyToLength` lookup table of `generateMnemonic` (lines 30-36);
indexing outside the five keys yields `undefined`, modelled as `none`. -/
def entropyToLength (e : Nat) : Option Nat :=
  if e = 128 then some 12
  else if e = 160 then some 15
  else if e = 192 then some 18
  else if e = 224 then some 21
  else if e = 256 then some 24
  else none

/-- The word-count resolution of `generateMnemonic` (lines 39-45): both
truthy → table lookup on the entropy; neither truthy → 12; otherwise the
caller's `length` as-is (also when only `entropy` was given). -/
def resolveWordCount (entropy length : Option Nat) : Option Nat :=
  if truthyNat entropy && truthyNat length then
    entropy.bind entropyToLength
  else if !truthyNat entropy && !truthyNat length then
    some 12
  else
    length

/-- The network rewrite of `generateMnemonic` (line 47): a present network is
overwritten with `"testnet"`, an absent one is left unchanged. -/
def resolveNetwork (network : JSVal) : JSVal :=
  if jsExists network then JSVal.str "testnet" else network

/-- `generateMnemonic` (lines 28-54): resolves the word count and network,
forwards both to the engine's mnemonic generator, and wraps the outcome. -/
def generateMnemonic (engine : Engine τc τp ω) (args : GenerateMnemonicRequest) :
    Response String × List EngineCall :=
  let wordCount := resolveWordCount args.entropy args.length
  let network := resolveNetwork args.network
  match engine.generateMnemonic wordCount network with
  | .ok seed => (.success seed, [.generateMnemonic wordCount network])
  | .error e => (.failure e, [.generateMnemonic wordCount network])

/-! ### createXprv (lines 74-83) -/

/-- `createXprv` (lines 74-83): calls the engine's `getExtendedKeyInfo` and
extracts the `xprv` field of the result. -/
def createXprv (engine : Engine τc τp ω) (network mnemonic password : JSVal) :
    Response JSVal × List EngineCall :=
  match engine.getExtendedKeyInfo network mnemonic password with
  | .ok keyInfo => (.success keyInfo.xprv, [.getExtendedKeyInfo network mnemonic password])
  | .error e => (.failure e, [.getExtendedKeyInfo network mnemonic password])

/-! ### createDescriptor (lines 89-142) -/

/-- Arguments of `createDescriptor`; spec 3 `DescriptorRequest`. -/
structure CreateDescriptorRequest where
  type : JSVal
  mnemonic : JSVal
  password : JSVal
  network : JSVal
  xprv : JSVal
  path : JSVal
  publicKeys : Option (List String)
  threshold : Option Int
deriving DecidableEq, Repr

/-- JavaScript truthiness of the optional `threshold` number. -/
def truthyInt : Option Int → Bool
  | none => false
  | some t => t ≠ 0

/-- The `switch (type)` of the single-key branch (lines 110-129): the method
token, empty for unrecognised types. -/
def descriptorMethod : JSVal → String
  | .undefined => "wpkh"
  | .null => "wpkh"
  | .str s =>
    if s = "default" || s = "" || s = "p2wpkh" || s = "wpkh" then "wpkh"
    else if s = "p2pkh" || s = "pkh" then "pkh"
    else if s = "shp2wpkh" || s = "p2shp2wpkh" then "sh(wpkh"
    else ""

/-- The path defaulting of line 105 followed by its stringification: an absent
path becomes the BIP-84 default. -/
def effectivePath (path : JSVal) : String :=
  if jsExists path then path.toTemplateString else "/84'/1'/0'/0/*"

/-- Truthiness of the `publicKeys` array combined with the explicit
`length == 0` test of line 132: true when the list is absent or empty. -/
def publicKeysInvalid : Option (List String) → Bool
  | none => true
  | some ks => ks.length = 0

/-- `createDescriptor` (lines 89-142): mutual exclusion of `xprv`/`mnemonic`,
optional derivation of the xprv through `createXprv` (consumed via the `.data`
property without checking the envelope tag), path defaulting, and the
single-key / multisig descriptor construction. -/
def createDescriptor (engine : Engine τc τp ω) (args : CreateDescriptorRequest) :
    Response String × List EngineCall :=
  if !jsExists args.xprv && !jsExists args.mnemonic then
    (.failure (.str "Required param mnemonic or xprv is missing."), [])
  else if jsExists args.xprv && jsExists args.mnemonic then
    (.failure (.str "Only one parameter is required either mnemonic or xprv."), [])
  else
    let useMnemonic := !jsExists args.xprv
    if useMnemonic && (!jsExists args.mnemonic || !jsExists args.network) then
      (.failure (.str "One or more required parameters are emtpy(Mnemonic, Network)."), [])
    else
      let derived : JSVal × List EngineCall :=
        if useMnemonic then
          let r := createXprv engine args.network args.mnemonic args.password
          (r.1.dataField, r.2)
        else (args.xprv, [])
      let xprv := derived.1
      let trace := derived.2
      if !useMnemonic && !jsExists xprv then
        (.failure (.str "XPRV is required"), trace)
      else
        let path := effectivePath args.path
        if args.type ≠ JSVal.str "MULTI" then
          let method := descriptorMethod args.type
          (.success (method ++ "(" ++ xprv.toTemplateString ++ path ++ ")"), trace)
        else
          if !truthyInt args.threshold || publicKeysInvalid args.publicKeys then
            (.failure (.str "Thresold or publicKeys values are invalid."), trace)
          else
            let t := args.threshold.getD 0
            let ks := args.publicKeys.getD []
            if t = 0 || (ks.length : Int) + 1 < t then
              (.failure (.str "Thresold value is invalid."), trace)
            else
              (.success ("sh(multi(" ++ toString t ++ xprv.toTemplateString ++ ","
                ++ String.intercalate "," ks ++ path ++ "))"), trace)

/-! ### createWallet (lines 148-186) -/

/-- Arguments of `createWallet`; spec 3 `WalletInitRequest`. -/
structure CreateWalletRequest where
  mnemonic : JSVal
  descriptor : JSVal
  password : JSVal
  network : JSVal
  blockChainConfigUrl : JSVal
  blockChainSocket5 : JSVal
  retry : JSVal
  timeOut : JSVal
  blockChainName : JSVal
deriving DecidableEq, Repr

/-- The nullish coalescing `v ?? ''` of lines 172-180: `undefined` and `null`
become the empty string, a string passes through. -/
def orEmpty : JSVal → String
  | .undefined => ""
  | .null => ""
  | .str s => s

/-- The optional-chained `descriptor?.includes(' ')` of line 167: whether the
string holds a space character (membership in its character list). -/
def includesSpace : JSVal → Bool
  | .str s => s.data.contains ' '
  | _ => false

/-- `createWallet` (lines 148-186): mutual exclusion of
`descriptor`/`mnemonic`, the whitespace heuristic on a supplied descriptor,
the network requirement on the mnemonic path, then the nine-argument engine
call with empty strings for absent fields. -/
def createWallet (engine : Engine τc τp ω) (args : CreateWalletRequest) :
    Response ω × List EngineCall :=
  if !jsExists args.descriptor && !jsExists args.mnemonic then
    (.failure (.str "Required param mnemonic or descriptor is missing."), [])
  else if jsExists args.descriptor && jsExists args.mnemonic then
    (.failure (.str "Only one parameter is required either mnemonic or descriptor."), [])
  else
    let useDescriptor := jsExists args.descriptor
    if useDescriptor && includesSpace args.descriptor then
      (.failure (.str "Descriptor is not valid."), [])
    else if !useDescriptor && (!jsExists args.mnemonic || !jsExists args.network) then
      (.failure (.str "One or more required parameters are emtpy(Mnemonic, Network)."), [])
    else
      let call := EngineCall.createWallet (orEmpty args.mnemonic) (orEmpty args.password)
        (orEmpty args.network) (orEmpty args.blockChainConfigUrl)
        (orEmpty args.blockChainSocket5) (orEmpty args.retry) (orEmpty args.timeOut)
        (orEmpty args.blockChainName) (orEmpty args.descriptor)
      match engine.createWallet (orEmpty args.mnemonic) (orEmpty args.password)
        (orEmpty args.network) (orEmpty args.blockChainConfigUrl)
        (orEmpty args.blockChainSocket5) (orEmpty args.retry) (orEmpty args.timeOut)
        (orEmpty args.blockChainName) (orEmpty args.descriptor) with
      | .ok w => (.success w, [call])
      | .error e => (.failure e, [call])

/-! ### getTransactions (lines 273-282) -/

/-- The combined record `\x7bconfirmed, pending\x7d` of `getTransactions`. -/
structure TransactionsResponse (τc τp : Type) where
  confirmed : List τc
  pending : List τp
deriving DecidableEq, Repr

/-- `getTransactions` (lines 273-282): awaits the confirmed list, then the
pending list, and combines them; a rejection of either call is caught and
wrapped as the failure of the whole operation. -/
def getTransactions (engine : Engine τc τp ω) :
    Response (TransactionsResponse τc τp) × List EngineCall :=
  match engine.getConfirmedTransactions with
  | .error e => (.failure e, [.getConfirmedTransactions])
  | .ok confirmed =>
    match engine.getPendingTransactions with
    | .error e => (.failure e, [.getConfirmedTransactions, .getPendingTransactions])
    | .ok pending =>
      (.success ⟨confirmed, pending⟩, [.getConfirmedTransactions, .getPendingTransactions])

/-! ### Concrete engines used to evaluate the façade on closed inputs -/

/-- An engine on which every capability succeeds. -/
def okEngine : Engine Unit Unit Unit :=
  ⟨fun _ _ => .ok "seed words here",
   fun _ _ _ => .ok ⟨.str "tprvKey"⟩,
   fun _ _ _ _ _ _ _ _ _ => .ok (),
   .ok [], .ok []⟩

/-- An engine whose `getExtendedKeyInfo` rejects. -/
def keyFailEngine : Engine Unit Unit Unit :=
  ⟨fun _ _ => .ok "seed words here",
   fun _ _ _ => .error (.str "engine key failure"),
   fun _ _ _ _ _ _ _ _ _ => .ok (),
   .ok [], .ok []⟩

/-- An engine whose confirmed-transactions capability rejects. -/
def confirmedFailEngine : Engine Unit Unit Unit :=
  ⟨fun _ _ => .ok "seed words here",
   fun _ _ _ => .ok ⟨.str "tprvKey"⟩,
   fun _ _ _ _ _ _ _ _ _ => .ok (),
   .error (.str "confirmed fetch failed"), .ok []⟩

/-- An engine whose pending-transactions capability rejects. -/
def pendingFailEngine : Engine Unit Unit Unit :=
  ⟨fun _ _ => .ok "seed words here",
   fun _ _ _ => .ok ⟨.str "tprvKey"⟩,
   fun _ _ _ _ _ _ _ _ _ => .ok (),
   .ok [], .error (.str "pending fetch failed")⟩

/-! ### Helper lemmas -/

/-- Whatever the engine answers, `generateMnemonic` issues exactly one engine
call, carrying the resolved word count and the rewritten network. -/
theorem generateMnemonic_trace (engine : Engine τc τp ω) (args : GenerateMnemonicRequest) :
    (generateMnemonic engine args).2
      = [EngineCall.generateMnemonic (resolveWordCount args.entropy args.length)
          (resolveNetwork args.network)] := by
  unfold generateMnemonic
  cases h : engine.generateMnemonic (resolveWordCount args.entropy args.length)
      (resolveNetwork args.network) <;> simp [h]

/-! ### Claims -/

/-- Claim C1: the claim states that `type="shp2wpkh", xprv="X",
path="/49'/0'/0'/0/*"` yields the parenthesis-balanced descriptor
`"sh(wpkh(X/49'/0'/0'/0/*))"`.  The code's template appends the method token
`"sh(wpkh"` to a single parenthesised group, so it actually returns
`"sh(wpkh(X/49'/0'/0'/0/*)"`, which is missing one closing parenthesis and is
not the claimed string. -/
theorem C1_shp2wpkh_descriptor_unbalanced :
    (createDescriptor okEngine
        ⟨JSVal.str "shp2wpkh", JSVal.undefined, JSVal.undefined, JSVal.undefined, JSVal.str "X",
          JSVal.str "/49'/0'/0'/0/*", none, none⟩).1
      = Response.success "sh(wpkh(X/49'/0'/0'/0/*)" ∧
    (Response.success "sh(wpkh(X/49'/0'/0'/0/*)" : Response String)
      ≠ Response.success "sh(wpkh(X/49'/0'/0'/0/*))" := by
  exact ⟨rfl, by decide⟩

/-- Claim C2 counterexample: with `entropy = 128` supplied and `length`
absent, the word count forwarded to the engine is the absent `length`
(`none`, i.e. `undefined`), not the mapped value 12 the claim states. -/
theorem C2_entropy_only_not_mapped :
    (generateMnemonic okEngine ⟨some 128, none, JSVal.undefined⟩).2
      = [EngineCall.generateMnemonic none JSVal.undefined] ∧
    (generateMnemonic okEngine ⟨some 128, none, JSVal.undefined⟩).2
      ≠ [EngineCall.generateMnemonic (some 12) JSVal.undefined] := by
  exact ⟨rfl, by decide⟩

/-- Claim C2 amended: when both `entropy` and `length` are truthy the word
count is the table lookup on `entropy` (overriding `length`); when neither is
truthy it is 12; in every remaining case — including the case where only
`entropy` is supplied — the caller's `length` field is forwarded as-is, so an
absent `length` is forwarded as `undefined` and the entropy mapping is not
applied. -/
theorem C2_word_count_resolution (engine : Engine τc τp ω)
    (args : GenerateMnemonicRequest) :
    (truthyNat args.entropy = true → truthyNat args.length = true →
      (generateMnemonic engine args).2
        = [EngineCall.generateMnemonic (args.entropy.bind entropyToLength)
            (resolveNetwork args.network)]) ∧
    (truthyNat args.entropy = false → truthyNat args.length = false →
      (generateMnemonic engine args).2
        = [EngineCall.generateMnemonic (some 12) (resolveNetwork args.network)]) ∧
    (truthyNat args.entropy ≠ truthyNat args.length →
      (generateMnemonic engine args).2
        = [EngineCall.generateMnemonic args.length (resolveNetwork args.network)]) := by
  have htrace := generateMnemonic_trace engine args
  refine ⟨fun he hl => ?_, fun he hl => ?_, fun hne => ?_⟩ <;> rw [htrace] <;>
    unfold resolveWordCount
  · simp [he, hl]
  · simp [he, hl]
  · cases he : truthyNat args.entropy <;> cases hl : truthyNat args.length <;>
      simp_all

/-- Claim C2 amended, witness: entropy 128 with length 15 is overridden to 12;
nothing supplied gives 12; entropy 128 alone forwards the absent length. -/
theorem C2_word_count_resolution_witness :
    (generateMnemonic okEngine ⟨some 128, some 15, JSVal.undefined⟩).2
      = [EngineCall.generateMnemonic (some 12) JSVal.undefined] ∧
    (generateMnemonic okEngine ⟨none, none, JSVal.undefined⟩).2
      = [EngineCall.generateMnemonic (some 12) JSVal.undefined] ∧
    (generateMnemonic okEngine ⟨some 128, none, JSVal.undefined⟩).2
      = [EngineCall.generateMnemonic none JSVal.undefined] := by
  refine ⟨?_, ?_, ?_⟩
  · exact ((C2_word_count_resolution okEngine ⟨some 128, some 15, JSVal.undefined⟩).1
      (by decide) (by decide)).trans (by decide)
  · exact ((C2_word_count_resolution okEngine ⟨none, none, JSVal.undefined⟩).2.1
      (by decide) (by decide)).trans (by decide)
  · exact ((C2_word_count_resolution okEngine ⟨some 128, none, JSVal.undefined⟩).2.2
      (by decide)).trans (by decide)

/-- Claim C3 counterexample: `threshold = -1` with two public keys is below 1,
so the claim requires a failure, yet the code accepts it (`-1 == 0` and
`-1 > 2 + 1` are both false) and builds a descriptor embedding `-1`. -/
theorem C3_negative_threshold_accepted :
    (createDescriptor okEngine
        ⟨JSVal.str "MULTI", JSVal.undefined, JSVal.undefined, JSVal.undefined, JSVal.str "X",
          JSVal.undefined, some ["A", "B"], some (-1)⟩).1
      = Response.success "sh(multi(-1X,A,B/84'/1'/0'/0/*))" := by
  rfl

/-- Claim C3 amended: with an xprv supplied, `type="MULTI"` and a non-empty
publicKeys list of length n, the operation fails exactly when the threshold is
absent, equal to 0, or greater than n + 1; thresholds strictly below 0 are
(erroneously) accepted, so `threshold = 3` with two keys succeeds and
`threshold = 4` fails. -/
theorem C3_multi_threshold_bounds (engine : Engine τc τp ω)
    (args : CreateDescriptorRequest) (ks : List String)
    (hx : jsExists args.xprv = true) (hm : jsExists args.mnemonic = false)
    (hty : args.type = JSVal.str "MULTI") (hk : args.publicKeys = some ks)
    (hne : ks ≠ []) :
    (createDescriptor engine args).1.isFailure = true ↔
      args.threshold = none ∨ args.threshold = some 0 ∨
        ∃ t : Int, args.threshold = some t ∧ (ks.length : Int) + 1 < t := by
  unfold createDescriptor
  rcases hth : args.threshold with _ | t
  · simp [hx, hm, hty, truthyInt, Response.isFailure]
  · by_cases ht0 : t = 0
    · subst ht0
      simp [hx, hm, hty, truthyInt, Response.isFailure]
    · by_cases hgt : (ks.length : Int) + 1 < t
      · simp [hx, hm, hty, hk, hne, truthyInt, publicKeysInvalid, ht0, hgt,
          List.length_eq_zero, Response.isFailure]
      · simp [hx, hm, hty, hk, hne, truthyInt, publicKeysInvalid, ht0, hgt,
          List.length_eq_zero, Response.isFailure]

/-- Claim C3 amended, witness: at `threshold = 4` with two keys the operation
fails (4 > 2 + 1); at `threshold = 3` with the same keys it succeeds. -/
theorem C3_multi_threshold_bounds_witness :
    (createDescriptor okEngine
        ⟨JSVal.str "MULTI", JSVal.undefined, JSVal.undefined, JSVal.undefined, JSVal.str "X",
          JSVal.undefined, some ["A", "B"], some 4⟩).1.isFailure = true ∧
    (createDescriptor okEngine
        ⟨JSVal.str "MULTI", JSVal.undefined, JSVal.undefined, JSVal.undefined, JSVal.str "X",
          JSVal.undefined, some ["A", "B"], some 3⟩).1.isFailure = false := by
  constructor
  · exact (C3_multi_threshold_bounds okEngine
      ⟨JSVal.str "MULTI", JSVal.undefined, JSVal.undefined, JSVal.undefined, JSVal.str "X",
        JSVal.undefined, some ["A", "B"], some 4⟩ ["A", "B"]
      (by decide) (by decide) rfl rfl (by decide)).mpr
      (Or.inr (Or.inr ⟨4, rfl, by decide⟩))
  · decide

/-- Claim C4: whenever the request's network field is supplied (not null, not
undefined, not empty), `generateMnemonic` forwards the literal `"testnet"` to
the engine regardless of the supplied value; when it is absent the absent
value itself is forwarded unchanged. -/
theorem C4_network_forced_testnet (engine : Engine τc τp ω)
    (args : GenerateMnemonicRequest) :
    (jsExists args.network = true →
      (generateMnemonic engine args).2
        = [EngineCall.generateMnemonic (resolveWordCount args.entropy args.length)
            (JSVal.str "testnet")]) ∧
    (jsExists args.network = false →
      (generateMnemonic engine args).2
        = [EngineCall.generateMnemonic (resolveWordCount args.entropy args.length)
            args.network]) := by
  have htrace := generateMnemonic_trace engine args
  constructor <;> intro hn <;> rw [htrace] <;> unfold resolveNetwork <;> simp [hn]

/-- Claim C4, witness: a supplied `"bitcoin"` network is forwarded as
`"testnet"`; an absent (null) network is forwarded unchanged. -/
theorem C4_network_forced_testnet_witness :
    (generateMnemonic okEngine ⟨none, none, JSVal.str "bitcoin"⟩).2
      = [EngineCall.generateMnemonic (some 12) (JSVal.str "testnet")] ∧
    (generateMnemonic okEngine ⟨none, none, JSVal.null⟩).2
      = [EngineCall.generateMnemonic (some 12) JSVal.null] := by
  constructor
  · exact ((C4_network_forced_testnet okEngine ⟨none, none, JSVal.str "bitcoin"⟩).1
      (by decide)).trans (by decide)
  · exact ((C4_network_forced_testnet okEngine ⟨none, none, JSVal.null⟩).2
      (by decide)).trans (by decide)

/-- Claim C5: `createDescriptor` requires exactly one of `xprv` and
`mnemonic`: with both absent it fails with the missing-param message, with
both supplied it fails with the only-one-parameter message, and in both cases
the engine-call trace is empty — the engine is never consulted. -/
theorem C5_xprv_mnemonic_mutual_exclusion (engine : Engine τc τp ω)
    (args : CreateDescriptorRequest) :
    (jsExists args.xprv = false → jsExists args.mnemonic = false →
      createDescriptor engine args
        = (Response.failure (JSVal.str "Required param mnemonic or xprv is missing."),
            [])) ∧
    (jsExists args.xprv = true → jsExists args.mnemonic = true →
      createDescriptor engine args
        = (Response.failure
            (JSVal.str "Only one parameter is required either mnemonic or xprv."),
            [])) := by
  constructor <;> intro h1 h2 <;> unfold createDescriptor <;> simp [h1, h2]

/-- Claim C5, witness: the empty request and the request carrying both an
xprv and a mnemonic each fail, engine untouched. -/
theorem C5_xprv_mnemonic_mutual_exclusion_witness :
    createDescriptor okEngine
        ⟨JSVal.undefined, JSVal.undefined, JSVal.undefined, JSVal.undefined, JSVal.undefined, JSVal.undefined,
          none, none⟩
      = (Response.failure (JSVal.str "Required param mnemonic or xprv is missing."),
          []) ∧
    createDescriptor okEngine
        ⟨JSVal.undefined, JSVal.str "seed words", JSVal.undefined, JSVal.undefined, JSVal.str "X",
          JSVal.undefined, none, none⟩
      = (Response.failure
          (JSVal.str "Only one parameter is required either mnemonic or xprv."),
          []) := by
  constructor
  · exact (C5_xprv_mnemonic_mutual_exclusion okEngine
      ⟨JSVal.undefined, JSVal.undefined, JSVal.undefined, JSVal.undefined, JSVal.undefined, JSVal.undefined,
        none, none⟩).1 (by decide) (by decide)
  · exact (C5_xprv_mnemonic_mutual_exclusion okEngine
      ⟨JSVal.undefined, JSVal.str "seed words", JSVal.undefined, JSVal.undefined, JSVal.str "X",
        JSVal.undefined, none, none⟩).2 (by decide) (by decide)

/-- Claim C6: `createWallet` fails without issuing any engine call exactly
when a precondition is violated: not exactly one of descriptor and mnemonic
supplied, or a supplied descriptor contains a space, or the mnemonic path is
chosen without a network. -/
theorem C6_createWallet_validation (engine : Engine τc τp ω)
    (args : CreateWalletRequest) :
    ((createWallet engine args).2 = [] ∧ (createWallet engine args).1.isFailure = true)
      ↔ (jsExists args.descriptor = jsExists args.mnemonic ∨
          (jsExists args.descriptor = true ∧ includesSpace args.descriptor = true) ∨
          (jsExists args.mnemonic = true ∧ jsExists args.descriptor = false ∧
            jsExists args.network = false)) := by
  unfold createWallet
  cases hd : jsExists args.descriptor <;> cases hm : jsExists args.mnemonic <;>
    cases hs : includesSpace args.descriptor <;> cases hn : jsExists args.network <;>
      simp [hd, hm, hs, hn, Response.isFailure] <;>
        (try split) <;> simp [Response.isFailure]

/-- Claim C6, witness: the spec's example `descriptor="a b"` (a space inside
the descriptor, everything else absent) fails without any engine call. -/
theorem C6_createWallet_validation_witness :
    (createWallet okEngine
        ⟨JSVal.undefined, JSVal.str "a b", JSVal.undefined, JSVal.undefined, JSVal.undefined,
          JSVal.undefined, JSVal.undefined, JSVal.undefined, JSVal.undefined⟩).2 = [] ∧
    (createWallet okEngine
        ⟨JSVal.undefined, JSVal.str "a b", JSVal.undefined, JSVal.undefined, JSVal.undefined,
          JSVal.undefined, JSVal.undefined, JSVal.undefined, JSVal.undefined⟩).1.isFailure = true := by
  exact (C6_createWallet_validation okEngine
      ⟨JSVal.undefined, JSVal.str "a b", JSVal.undefined, JSVal.undefined, JSVal.undefined,
        JSVal.undefined, JSVal.undefined, JSVal.undefined, JSVal.undefined⟩).mpr
    (Or.inr (Or.inl ⟨by decide, by decide⟩))

/-- Claim C7: when validation passes and the engine's wallet constructor
succeeds, `createWallet` issues exactly one engine call carrying the nine
positional fields in order (mnemonic, password, network, backend URL, proxy,
retry, timeout, backend name, descriptor), each absent field replaced by the
empty string, and wraps the engine's result in a success envelope. -/
theorem C7_createWallet_forwards_nine_args (engine : Engine τc τp ω)
    (args : CreateWalletRequest) (w : ω)
    (hexcl : jsExists args.descriptor ≠ jsExists args.mnemonic)
    (hspace : includesSpace args.descriptor = false)
    (hnet : jsExists args.descriptor = false → jsExists args.network = true)
    (hok : engine.createWallet (orEmpty args.mnemonic) (orEmpty args.password)
        (orEmpty args.network) (orEmpty args.blockChainConfigUrl)
        (orEmpty args.blockChainSocket5) (orEmpty args.retry) (orEmpty args.timeOut)
        (orEmpty args.blockChainName) (orEmpty args.descriptor) = Except.ok w) :
    createWallet engine args
      = (Response.success w,
          [EngineCall.createWallet (orEmpty args.mnemonic) (orEmpty args.password)
            (orEmpty args.network) (orEmpty args.blockChainConfigUrl)
            (orEmpty args.blockChainSocket5) (orEmpty args.retry)
            (orEmpty args.timeOut) (orEmpty args.blockChainName)
            (orEmpty args.descriptor)]) := by
  unfold createWallet
  cases hd : jsExists args.descriptor <;> cases hm : jsExists args.mnemonic <;>
    rw [hd, hm] at hexcl <;> try simp at hexcl
  · have hn := hnet hd
    simp [hspace, hn, hok]
  · simp [hspace, hok]

/-- Claim C7, witness: a descriptor-only request with every other field
absent reaches the engine as nine positional arguments, the eight absent ones
as empty strings, and the engine's result comes back as a success. -/
theorem C7_createWallet_forwards_nine_args_witness :
    createWallet okEngine
        ⟨JSVal.undefined, JSVal.str "wpkh(tprvKey/84'/1'/0'/0/*)", JSVal.undefined, JSVal.undefined,
          JSVal.undefined, JSVal.undefined, JSVal.undefined, JSVal.undefined, JSVal.undefined⟩
      = (Response.success (),
          [EngineCall.createWallet "" "" "" "" "" "" "" ""
            "wpkh(tprvKey/84'/1'/0'/0/*)"]) := by
  exact (C7_createWallet_forwards_nine_args okEngine
      ⟨JSVal.undefined, JSVal.str "wpkh(tprvKey/84'/1'/0'/0/*)", JSVal.undefined, JSVal.undefined,
        JSVal.undefined, JSVal.undefined, JSVal.undefined, JSVal.undefined, JSVal.undefined⟩ ()
      (by decide) (by decide) (fun h => absurd h (by decide)) rfl).trans (by decide)

/-- Claim C8: a `type="MULTI"` request that passes the threshold and
publicKeys checks, deriving from a supplied xprv, returns the descriptor
`"sh(multi(" ++ threshold ++ xprv ++ "," ++ (publicKeys joined by ",")
++ path ++ "))"`, the path being the supplied one or the BIP-84 default. -/
theorem C8_multi_descriptor_shape (engine : Engine τc τp ω)
    (args : CreateDescriptorRequest) (t : Int) (ks : List String)
    (hx : jsExists args.xprv = true) (hm : jsExists args.mnemonic = false)
    (hty : args.type = JSVal.str "MULTI") (hth : args.threshold = some t)
    (hk : args.publicKeys = some ks) (ht0 : t ≠ 0)
    (htle : t ≤ (ks.length : Int) + 1) (hne : ks ≠ []) :
    createDescriptor engine args
      = (Response.success ("sh(multi(" ++ toString t
            ++ args.xprv.toTemplateString ++ "," ++ String.intercalate "," ks
            ++ effectivePath args.path ++ "))"),
          []) := by
  unfold createDescriptor
  simp [hx, hm, hty, hth, hk, truthyInt, publicKeysInvalid, ht0, hne,
    List.length_eq_zero, not_lt.mpr htle]

/-- Claim C8, witness: `threshold=2, publicKeys=["A","B"], xprv="X"` with the
path absent yields `"sh(multi(2X,A,B/84'/1'/0'/0/*))"`. -/
theorem C8_multi_descriptor_shape_witness :
    createDescriptor okEngine
        ⟨JSVal.str "MULTI", JSVal.undefined, JSVal.undefined, JSVal.undefined, JSVal.str "X",
          JSVal.undefined, some ["A", "B"], some 2⟩
      = (Response.success "sh(multi(2X,A,B/84'/1'/0'/0/*))", []) := by
  exact (C8_multi_descriptor_shape okEngine
      ⟨JSVal.str "MULTI", JSVal.undefined, JSVal.undefined, JSVal.undefined, JSVal.str "X",
        JSVal.undefined, some ["A", "B"], some 2⟩ 2 ["A", "B"]
      (by decide) (by decide) rfl rfl rfl (by decide) (by decide)
      (by decide)).trans (by decide)

/-- Claim C9: `getTransactions` asks the engine for the confirmed
transactions first and the pending ones second; when both succeed it returns
a success envelope holding the combined record, and when either underlying
call fails the whole operation returns that failure. -/
theorem C9_getTransactions_sequential_combine (engine : Engine τc τp ω) :
    (∀ confirmed pending, engine.getConfirmedTransactions = Except.ok confirmed →
      engine.getPendingTransactions = Except.ok pending →
      getTransactions engine
        = (Response.success ⟨confirmed, pending⟩,
            [EngineCall.getConfirmedTransactions, EngineCall.getPendingTransactions])) ∧
    (∀ e, engine.getConfirmedTransactions = Except.error e →
      getTransactions engine
        = (Response.failure e, [EngineCall.getConfirmedTransactions])) ∧
    (∀ confirmed e, engine.getConfirmedTransactions = Except.ok confirmed →
      engine.getPendingTransactions = Except.error e →
      getTransactions engine
        = (Response.failure e,
            [EngineCall.getConfirmedTransactions, EngineCall.getPendingTransactions])) := by
  refine ⟨fun c p hc hp => ?_, fun e hc => ?_, fun c e hc hp => ?_⟩
  · unfold getTransactions
    rw [hc, hp]
  · unfold getTransactions
    rw [hc]
  · unfold getTransactions
    rw [hc, hp]

/-- Claim C9, witness: both capabilities succeeding gives the combined
record after the ordered pair of calls; a failing confirmed fetch fails the
operation after one call; a failing pending fetch fails it after both. -/
theorem C9_getTransactions_sequential_combine_witness :
    getTransactions okEngine
      = (Response.success ⟨[], []⟩,
          [EngineCall.getConfirmedTransactions, EngineCall.getPendingTransactions]) ∧
    getTransactions confirmedFailEngine
      = (Response.failure (JSVal.str "confirmed fetch failed"),
          [EngineCall.getConfirmedTransactions]) ∧
    getTransactions pendingFailEngine
      = (Response.failure (JSVal.str "pending fetch failed"),
          [EngineCall.getConfirmedTransactions, EngineCall.getPendingTransactions]) := by
  refine ⟨?_, ?_, ?_⟩
  · exact (C9_getTransactions_sequential_combine okEngine).1 [] [] rfl rfl
  · exact (C9_getTransactions_sequential_combine confirmedFailEngine).2.1
      (JSVal.str "confirmed fetch failed") rfl
  · exact (C9_getTransactions_sequential_combine pendingFailEngine).2.2 []
      (JSVal.str "pending fetch failed") rfl rfl

/-- Claim C10 counterexample: a mnemonic-path request whose
`getExtendedKeyInfo` call fails does not always come back as a success
envelope — with `type="MULTI"` and no threshold the later validation still
throws, so the operation returns the threshold failure message instead of the
success envelope the claim asserts. -/
theorem C10_engine_failure_multi_still_validates :
    (createDescriptor keyFailEngine
        ⟨JSVal.str "MULTI", JSVal.str "seed words", JSVal.undefined, JSVal.str "testnet",
          JSVal.undefined, JSVal.undefined, none, none⟩).1
      = Response.failure (JSVal.str "Thresold or publicKeys values are invalid.") := by
  rfl

/-- Claim C10 amended: on the mnemonic path the envelope returned by
`createXprv` is consumed through its `data` field without inspecting its tag,
so when `getExtendedKeyInfo` fails the failure is never propagated: every
request whose remaining branch validation passes — every non-MULTI request,
and every MULTI request with a valid threshold over a non-empty publicKeys
list — returns a success envelope whose descriptor embeds `"undefined"` (the
`data` field of the failure envelope) in place of the key material, and any
failure of `createDescriptor` is one of the two local threshold messages. -/
theorem C10_engine_failure_swallowed (engine : Engine τc τp ω)
    (args : CreateDescriptorRequest) (err : JSVal)
    (hx : jsExists args.xprv = false) (hm : jsExists args.mnemonic = true)
    (hn : jsExists args.network = true)
    (hfail : engine.getExtendedKeyInfo args.network args.mnemonic args.password
        = Except.error err) :
    (args.type ≠ JSVal.str "MULTI" →
      (createDescriptor engine args).1
        = Response.success (descriptorMethod args.type ++ "(" ++ "undefined"
            ++ effectivePath args.path ++ ")")) ∧
    (∀ t : Int, ∀ ks : List String, args.type = JSVal.str "MULTI" →
      args.threshold = some t → args.publicKeys = some ks → t ≠ 0 → ks ≠ [] →
      t ≤ (ks.length : Int) + 1 →
      (createDescriptor engine args).1
        = Response.success ("sh(multi(" ++ toString t ++ "undefined" ++ ","
            ++ String.intercalate "," ks ++ effectivePath args.path ++ "))")) ∧
    (∀ e, (createDescriptor engine args).1 = Response.failure e →
      e = JSVal.str "Thresold or publicKeys values are invalid." ∨
        e = JSVal.str "Thresold value is invalid.") := by
  have hxprv : createXprv engine args.network args.mnemonic args.password
      = (Response.failure err,
          [EngineCall.getExtendedKeyInfo args.network args.mnemonic args.password]) := by
    unfold createXprv
    rw [hfail]
  have hsingle : args.type ≠ JSVal.str "MULTI" →
      (createDescriptor engine args).1
        = Response.success (descriptorMethod args.type ++ "(" ++ "undefined"
            ++ effectivePath args.path ++ ")") := by
    intro hty
    unfold createDescriptor
    simp [hx, hm, hn, hxprv, Response.dataField, hty, JSVal.toTemplateString]
  refine ⟨hsingle, ?_, ?_⟩
  · intro t ks hty hth hk ht0 hne htle
    unfold createDescriptor
    simp [hx, hm, hn, hxprv, hty, hth, hk, truthyInt, publicKeysInvalid, ht0, hne,
      List.length_eq_zero, not_lt.mpr htle, Response.dataField, JSVal.toTemplateString]
  · intro e he
    by_cases hty : args.type = JSVal.str "MULTI"
    · by_cases hg1 : (!truthyInt args.threshold || publicKeysInvalid args.publicKeys)
          = true
      · have hres : (createDescriptor engine args).1
            = Response.failure (JSVal.str "Thresold or publicKeys values are invalid.") := by
          unfold createDescriptor
          simp [hx, hm, hn, hxprv, hg1, hty, Response.dataField]
        rw [hres] at he
        injection he with h
        exact Or.inl h.symm
      · by_cases hg2 : args.threshold.getD 0 = 0 ∨
            ((args.publicKeys.getD []).length : Int) + 1 < args.threshold.getD 0
        · have hres : (createDescriptor engine args).1
              = Response.failure (JSVal.str "Thresold value is invalid.") := by
            unfold createDescriptor
            simp only [Bool.not_eq_true] at hg1
            simp [hx, hm, hn, hxprv, hg1, hg2, hty, Response.dataField]
          rw [hres] at he
          injection he with h
          exact Or.inr h.symm
        · have hres : (createDescriptor engine args).1
              = Response.success ("sh(multi(" ++ toString (args.threshold.getD 0)
                  ++ "undefined" ++ ","
                  ++ String.intercalate "," (args.publicKeys.getD [])
                  ++ effectivePath args.path ++ "))") := by
            unfold createDescriptor
            simp only [Bool.not_eq_true] at hg1
            simp [hx, hm, hn, hxprv, hg1, hg2, hty, Response.dataField,
              JSVal.toTemplateString]
          rw [hres] at he
          exact absurd he (by simp)
    · rw [hsingle hty] at he
      exact absurd he (by simp)

/-- Claim C10 amended, witness: against an engine whose key derivation fails,
a default-type mnemonic request yields the success envelope
`"wpkh(undefined/84'/1'/0'/0/*)"`, and a MULTI mnemonic request with
`threshold=2, publicKeys=["A","B"]` yields the success envelope
`"sh(multi(2undefined,A,B/84'/1'/0'/0/*))"`. -/
theorem C10_engine_failure_swallowed_witness :
    (createDescriptor keyFailEngine
        ⟨JSVal.undefined, JSVal.str "seed words", JSVal.undefined, JSVal.str "testnet",
          JSVal.undefined, JSVal.undefined, none, none⟩).1
      = Response.success "wpkh(undefined/84'/1'/0'/0/*)" ∧
    (createDescriptor keyFailEngine
        ⟨JSVal.str "MULTI", JSVal.str "seed words", JSVal.undefined, JSVal.str "testnet",
          JSVal.undefined, JSVal.undefined, some ["A", "B"], some 2⟩).1
      = Response.success "sh(multi(2undefined,A,B/84'/1'/0'/0/*))" := by
  constructor
  · exact ((C10_engine_failure_swallowed keyFailEngine
      ⟨JSVal.undefined, JSVal.str "seed words", JSVal.undefined, JSVal.str "testnet",
        JSVal.undefined, JSVal.undefined, none, none⟩ (JSVal.str "engine key failure")
      (by decide) (by decide) (by decide) rfl).1 (by decide)).trans (by decide)
  · exact ((C10_engine_failure_swallowed keyFailEngine
      ⟨JSVal.str "MULTI", JSVal.str "seed words", JSVal.undefined, JSVal.str "testnet",
        JSVal.undefined, JSVal.undefined, some ["A", "B"], some 2⟩
      (JSVal.str "engine key failure")
      (by decide) (by decide) (by decide) rfl).2.1 2 ["A", "B"] rfl rfl rfl
      (by decide) (by decide) (by decide)).trans (by decide)

end BdkRn
